import Mathlib

/-!
Shallow embedding of the stock-provider selection and fallback component of
the user-stocks-app repository: the provider adapters
(`FMPStockProvider`, `FinnhubStockProvider`), the provider registry
(`StockProviderFactory`) and the quote service (`StocksService`).

JavaScript numbers are modelled as `ℚ`; `undefined`/`null` vendor fields as
`Option`; thrown `HttpException`s as the `SvcError` error type of `Except`.
Mutation of the registry cursor is modelled by explicit state passing: each
stateful operation returns its result together with the registry state after
the call.
-/

/-- The Nest `HttpStatus` codes used by this component. -/
inductive HttpStatus where
  | badRequest
  | notFound
  | tooManyRequests
  | serviceUnavailable
  deriving DecidableEq, Repr

/-- An error thrown by the embedded code: either a Nest `HttpException`
(message and status), or a plain JavaScript error (e.g. the `TypeError` from
calling a method of `undefined`). -/
inductive SvcError where
  | http (message : String) (status : HttpStatus)
  | jsError (message : String)
  deriving DecidableEq, Repr

/-- Whether `error instanceof HttpException && error.getStatus() === HttpStatus.SERVICE_UNAVAILABLE`. -/
def SvcError.isServiceUnavailable : SvcError → Bool
  | .http _ .serviceUnavailable => true
  | _ => false

/-- The status of an `HttpException`; `none` for a non-HTTP error. -/
def SvcError.status? : SvcError → Option HttpStatus
  | .http _ s => some s
  | .jsError _ => none

/-- JavaScript `a || b` on an optional string: `undefined`, `null` and the
empty string are falsy. -/
def jsOrStr (a : Option String) (b : String) : String :=
  match a with
  | some s => if s = "" then b else s
  | none => b

/-- JavaScript `a || b` on an optional number: `undefined`, `null` and `0`
are falsy (so the substitution of `b` for a present `0` is invisible when
`b = 0`). -/
def jsOrNum (a : Option ℚ) (b : ℚ) : ℚ :=
  match a with
  | some x => if x = 0 then b else x
  | none => b

/-- JavaScript `a || b` on an optional natural number (used for the
`rateLimitPerMinute` / `timeout` config defaults). -/
def jsOrNat (a : Option Nat) (b : Nat) : Nat :=
  match a with
  | some n => if n = 0 then b else n
  | none => b

/-- JavaScript `haystack.includes(needle)` on strings. -/
def jsIncludes (haystack needle : String) : Bool :=
  decide (needle.toList <:+: haystack.toList)

/-- JavaScript `parseInt` restricted to the leading-decimal-digit case;
`none` models the `NaN` result. -/
def parseIntJS (s : String) : Option Int :=
  let digits := s.takeWhile Char.isDigit
  if digits = "" then none else (digits.toNat?).map Int.ofNat

/-- Canonical quote record (shared-types `Stock`).  Both adapters and the
mock catalog populate every field, substituting `0` for vendor-omitted
numeric fields, so all fields are total here. -/
structure Stock where
  symbol : String
  name : String
  price : ℚ
  change : ℚ
  changePercent : ℚ
  volume : ℚ
  marketCap : ℚ
  pe : ℚ
  eps : ℚ
  deriving DecidableEq, Repr

/-- Canonical detail record (shared-types `StockDetail`): the quote fields
plus optional descriptive fields. -/
structure StockDetail where
  symbol : String
  name : String
  price : ℚ
  change : ℚ
  changePercent : ℚ
  volume : ℚ
  marketCap : ℚ
  pe : ℚ
  eps : ℚ
  description : Option String
  sector : Option String
  industry : Option String
  website : Option String
  ceo : Option String
  employees : Option Int
  headquarters : Option String
  founded : Option String
  deriving DecidableEq, Repr

/-- The base-quote projection of a detail record (the fields `StockDetail`
inherits from `Stock` in shared-types). -/
def StockDetail.baseQuote (d : StockDetail) : Stock :=
  { symbol := d.symbol, name := d.name, price := d.price, change := d.change,
    changePercent := d.changePercent, volume := d.volume,
    marketCap := d.marketCap, pe := d.pe, eps := d.eps }

/-- Holds when `value` is the vendor field with `0` substituted when the vendor omitted
it. -/
def defaultsToZero (field : Option ℚ) (value : ℚ) : Prop :=
  (∀ x, field = some x → value = x) ∧ (field = none → value = 0)

/-- An HTTP response as seen by the adapters: the `ok` flag of `fetch` and
the already-parsed JSON body. -/
structure HttpResponse (β : Type) where
  ok : Bool
  body : β
  deriving DecidableEq, Repr

/-- The FMP `/quote` payload entry (shared-types `FMPStock`), restricted to
the fields the adapter reads; every field may be absent in the vendor JSON. -/
structure FMPStock where
  symbol : Option String
  name : Option String
  price : Option ℚ
  change : Option ℚ
  changesPercentage : Option ℚ
  volume : Option ℚ
  marketCap : Option ℚ
  pe : Option ℚ
  eps : Option ℚ
  deriving DecidableEq, Repr

/-- The FMP `/profile` payload entry (shared-types `FMPCompanyProfile`),
restricted to the fields the adapter reads. -/
structure FMPCompanyProfile where
  description : Option String
  sector : Option String
  industry : Option String
  website : Option String
  ceo : Option String
  fullTimeEmployees : Option String
  city : String
  state : String
  deriving DecidableEq, Repr

namespace FMPStockProvider

/-- Embeds `FMPStockProvider.transformFMPStockToStock`: maps the vendor quote to
the canonical `Stock`, substituting `''`/`0` for absent fields via `||`. -/
def transformFMPStockToStock (fmpStock : FMPStock) : Stock :=
  { symbol := jsOrStr fmpStock.symbol ""
    name := jsOrStr fmpStock.name (jsOrStr fmpStock.symbol "")
    price := jsOrNum fmpStock.price 0
    change := jsOrNum fmpStock.change 0
    changePercent := jsOrNum fmpStock.changesPercentage 0
    volume := jsOrNum fmpStock.volume 0
    marketCap := jsOrNum fmpStock.marketCap 0
    pe := jsOrNum fmpStock.pe 0
    eps := jsOrNum fmpStock.eps 0 }

/-- Embeds `FMPStockProvider.transformFMPDataToStockDetail`: spreads the base quote
and adds the profile-only fields, each `undefined` when the profile is
absent.  `employees` uses `parseInt` behind a truthiness check on the
`fullTimeEmployees` string; `headquarters` is the template
`` `city, state` `` when a profile is present. -/
def transformFMPDataToStockDetail (fmpStock : FMPStock)
    (fmpProfile : Option FMPCompanyProfile) : StockDetail :=
  let baseStock := transformFMPStockToStock fmpStock
  { symbol := baseStock.symbol
    name := baseStock.name
    price := baseStock.price
    change := baseStock.change
    changePercent := baseStock.changePercent
    volume := baseStock.volume
    marketCap := baseStock.marketCap
    pe := baseStock.pe
    eps := baseStock.eps
    description := fmpProfile.bind (fun p => p.description)
    sector := fmpProfile.bind (fun p => p.sector)
    industry := fmpProfile.bind (fun p => p.industry)
    website := fmpProfile.bind (fun p => p.website)
    ceo := fmpProfile.bind (fun p => p.ceo)
    employees := fmpProfile.bind (fun p =>
      match p.fullTimeEmployees with
      | some s => if s = "" then none else parseIntJS s
      | none => none)
    headquarters := fmpProfile.map (fun p => p.city ++ ", " ++ p.state)
    founded := none }

/-- Embeds `FMPStockProvider.getStockQuote`, as a function of the single `/quote`
response (a JSON `null` body is collapsed into the empty list, which the
code treats identically). -/
def getStockQuote (response : HttpResponse (List FMPStock)) :
    Except SvcError Stock :=
  if response.ok = false then
    .error (.http "Failed to fetch stock data" .badRequest)
  else
    match response.body.head? with
    | none => .error (.http "Stock not found" .notFound)
    | some fmpStock => .ok (transformFMPStockToStock fmpStock)

/-- Embeds `FMPStockProvider.getStockDetail`, as a function of the two responses of
the `Promise.all` pair (both requests are issued unconditionally; neither
waits on the other's outcome). -/
def getStockDetail (quoteResponse : HttpResponse (List FMPStock))
    (profileResponse : HttpResponse (List FMPCompanyProfile)) :
    Except SvcError StockDetail :=
  if quoteResponse.ok = false then
    .error (.http "Failed to fetch stock data" .badRequest)
  else
    let quoteData := quoteResponse.body
    let profileData := if profileResponse.ok then profileResponse.body else []
    match quoteData.head? with
    | none => .error (.http "Stock not found" .notFound)
    | some fmpStock => .ok (transformFMPDataToStockDetail fmpStock profileData.head?)

end FMPStockProvider

/-- The Finnhub `/quote` payload; the code checks `c === null || undefined`,
so `c`, `d`, `dp` are modelled as optional. -/
structure FinnhubQuote where
  c : Option ℚ
  d : Option ℚ
  dp : Option ℚ
  deriving DecidableEq, Repr

/-- The Finnhub `/stock/profile2` payload, restricted to the fields the
adapter reads. -/
structure FinnhubCompanyProfile where
  country : String
  exchange : String
  finnhubIndustry : String
  ipo : String
  marketCapitalization : ℚ
  name : String
  weburl : String
  deriving DecidableEq, Repr

namespace FinnhubStockProvider

/-- Embeds `FinnhubStockProvider.transformFinnhubQuoteToStock`: the quote endpoint
carries no name/volume/marketCap/pe/eps, so `name` is the symbol and those
numeric fields are hard-coded `0`. -/
def transformFinnhubQuoteToStock (symbol : String) (quote : FinnhubQuote) : Stock :=
  { symbol := symbol
    name := symbol
    price := jsOrNum quote.c 0
    change := jsOrNum quote.d 0
    changePercent := jsOrNum quote.dp 0
    volume := 0
    marketCap := 0
    pe := 0
    eps := 0 }

/-- Models `new Date(ipo).getFullYear().toString()` for the ISO `yyyy-mm-dd` date
strings Finnhub returns: the leading four digits. -/
def yearOfIpo (ipo : String) : String :=
  (ipo.toList.take 4).asString

/-- Embeds `FinnhubStockProvider.transformFinnhubDataToStockDetail`.  Note that
`marketCap` goes through a truthiness check (`0` is falsy), `sector`, `ceo`
and `employees` are always `undefined`, and `founded` is derived from the
profile's `ipo` date when that string is truthy. -/
def transformFinnhubDataToStockDetail (symbol : String) (quote : FinnhubQuote)
    (profile : Option FinnhubCompanyProfile) : StockDetail :=
  let baseStock := transformFinnhubQuoteToStock symbol quote
  { symbol := baseStock.symbol
    name := jsOrStr (profile.map (fun p => p.name)) symbol
    price := baseStock.price
    change := baseStock.change
    changePercent := baseStock.changePercent
    volume := baseStock.volume
    marketCap :=
      match profile with
      | some p => if p.marketCapitalization = 0 then baseStock.marketCap
                  else p.marketCapitalization * 1000000
      | none => baseStock.marketCap
    pe := baseStock.pe
    eps := baseStock.eps
    description := profile.map (fun p =>
      p.name ++ " is a company in the " ++ p.finnhubIndustry ++
      " industry, based in " ++ p.country ++ ". Listed on " ++ p.exchange ++ ".")
    sector := none
    industry := profile.map (fun p => p.finnhubIndustry)
    website := profile.map (fun p => p.weburl)
    ceo := none
    employees := none
    headquarters := profile.map (fun p => p.country)
    founded := profile.bind (fun p =>
      if p.ipo = "" then none else some (yearOfIpo p.ipo)) }

/-- Embeds `FinnhubStockProvider.getStockQuote`, as a function of the `/quote`
response (a JSON `null` body is `none`). -/
def getStockQuote (symbol : String)
    (response : HttpResponse (Option FinnhubQuote)) : Except SvcError Stock :=
  if response.ok = false then
    .error (.http "Failed to fetch stock data" .badRequest)
  else
    match response.body with
    | none => .error (.http "Stock not found" .notFound)
    | some data =>
      match data.c with
      | none => .error (.http "Stock not found" .notFound)
      | some _ => .ok (transformFinnhubQuoteToStock symbol data)

/-- Embeds `FinnhubStockProvider.getStockDetail`, as a function of the two
responses of the `Promise.all` pair. -/
def getStockDetail (symbol : String)
    (quoteResponse : HttpResponse (Option FinnhubQuote))
    (profileResponse : HttpResponse (Option FinnhubCompanyProfile)) :
    Except SvcError StockDetail :=
  if quoteResponse.ok = false then
    .error (.http "Failed to fetch stock data" .badRequest)
  else
    let profileData := if profileResponse.ok then profileResponse.body else none
    match quoteResponse.body with
    | none => .error (.http "Stock not found" .notFound)
    | some quoteData =>
      match quoteData.c with
      | none => .error (.http "Stock not found" .notFound)
      | some _ => .ok (transformFinnhubDataToStockDetail symbol quoteData profileData)

end FinnhubStockProvider

/-- The registry state of `StockProviderFactory`: the ordered adapter list
(fixed after construction) and the mutable cursor.  The adapter type is a
parameter `P`; availability probing is a function `P → Bool` supplied per
call (one deterministic probe outcome per adapter within a call). -/
structure StockProviderFactory (P : Type) where
  providers : List P
  currentProviderIndex : Nat
  deriving DecidableEq, Repr

namespace StockProviderFactory

/-- The `for (let i = 0; ...)` availability scan of `getCurrentProvider`:
returns the first adapter whose probe is true, paired with its index (the
counter `n` is the index of the head of `l` in the full list). -/
def scanFrom {P : Type} (avail : P → Bool) : List P → Nat → Option (Nat × P)
  | [], _ => none
  | p :: ps, n => if avail p then some (n, p) else scanFrom avail ps (n + 1)

/-- Embeds `StockProviderFactory.getCurrentProvider`: probe the adapter at the
cursor; if available return it (cursor untouched), otherwise scan from index
0 and pin the cursor to the first available adapter; with no available
adapter, throw ServiceUnavailable.  A cursor outside the list would make
`this.providers[this.currentProviderIndex]` `undefined` and the probe call a
`TypeError`, which is modelled by the `jsError` branch. -/
def getCurrentProvider {P : Type} (avail : P → Bool)
    (st : StockProviderFactory P) : Except SvcError P × StockProviderFactory P :=
  if st.providers.length = 0 then
    (.error (.http "No stock providers available" .serviceUnavailable), st)
  else
    match st.providers.get? st.currentProviderIndex with
    | none => (.error (.jsError "TypeError: currentProvider is undefined"), st)
    | some currentProvider =>
      if avail currentProvider then
        (.ok currentProvider, st)
      else
        match scanFrom avail st.providers 0 with
        | some (i, provider) =>
          (.ok provider, { st with currentProviderIndex := i })
        | none =>
          (.error (.http "All stock providers are currently unavailable"
                     .serviceUnavailable), st)

/-- Embeds `StockProviderFactory.getProviderWithFallback`: any error from
`getCurrentProvider` is caught and the adapter at index 0 is returned when
the list is non-empty; otherwise the error is re-thrown. -/
def getProviderWithFallback {P : Type} (avail : P → Bool)
    (st : StockProviderFactory P) : Except SvcError P × StockProviderFactory P :=
  match getCurrentProvider avail st with
  | (.ok provider, st1) => (.ok provider, st1)
  | (.error e, st1) =>
    match st1.providers.head? with
    | some provider => (.ok provider, st1)
    | none => (.error e, st1)

/-- Embeds `StockProviderFactory.switchToNextProvider`: cyclic cursor increment,
guarded so that it is a literal no-op unless more than one adapter is
configured. -/
def switchToNextProvider {P : Type} (st : StockProviderFactory P) :
    StockProviderFactory P :=
  if 1 < st.providers.length then
    { st with currentProviderIndex := (st.currentProviderIndex + 1) % st.providers.length }
  else st

/-- Embeds `StockProviderFactory.getAvailableProviders`. -/
def getAvailableProviders {P : Type} (name : P → String)
    (st : StockProviderFactory P) : List String :=
  st.providers.map name

/-- Embeds `StockProviderFactory.getProviderStatus`: probes every adapter and
reports name/available pairs; the registry state is returned unchanged (the
method never writes the cursor). -/
def getProviderStatus {P : Type} (avail : P → Bool) (name : P → String)
    (st : StockProviderFactory P) :
    List (String × Bool) × StockProviderFactory P :=
  (st.providers.map (fun p => (name p, avail p)), st)

end StockProviderFactory

/-- Per-provider configuration (`StockProviderConfig`). -/
structure StockProviderConfig where
  apiKey : String
  baseUrl : String
  rateLimitPerMinute : Nat
  timeout : Nat
  deriving DecidableEq, Repr

/-- One optional entry of `StockProviderFactoryConfig` (the `fmp` /
`finnhub` sub-objects). -/
structure ProviderConfigEntry where
  apiKey : String
  baseUrl : Option String
  rateLimitPerMinute : Option Nat
  timeout : Option Nat
  deriving DecidableEq, Repr

/-- Embeds `StockProviderFactoryConfig`. -/
structure StockProviderFactoryConfig where
  fmp : Option ProviderConfigEntry
  finnhub : Option ProviderConfigEntry
  deriving DecidableEq, Repr

/-- The two concrete adapters the factory can instantiate, each carrying its
resolved configuration. -/
inductive BuiltProvider where
  | fmp (config : StockProviderConfig)
  | finnhub (config : StockProviderConfig)
  deriving DecidableEq, Repr

namespace StockProviderFactory

/-- The adapter list assembled by the constructor body: an adapter joins
the list only when its config entry is present with a truthy (non-empty)
`apiKey`; defaults are substituted for absent/falsy optional settings. -/
def builtProviders (config : StockProviderFactoryConfig) : List BuiltProvider :=
  let fmpList : List BuiltProvider :=
    match config.fmp with
    | some entry =>
      if entry.apiKey = "" then []
      else [BuiltProvider.fmp
        { apiKey := entry.apiKey
          baseUrl := jsOrStr entry.baseUrl "https://financialmodelingprep.com/api/v3"
          rateLimitPerMinute := jsOrNat entry.rateLimitPerMinute 250
          timeout := jsOrNat entry.timeout 10000 }]
    | none => []
  let finnhubList : List BuiltProvider :=
    match config.finnhub with
    | some entry =>
      if entry.apiKey = "" then []
      else [BuiltProvider.finnhub
        { apiKey := entry.apiKey
          baseUrl := jsOrStr entry.baseUrl "https://finnhub.io/api/v1"
          rateLimitPerMinute := jsOrNat entry.rateLimitPerMinute 60
          timeout := jsOrNat entry.timeout 10000 }]
    | none => []
  fmpList ++ finnhubList

/-- The constructor body (`initializeProviders`): an adapter joins the list
only when its config entry is present with a truthy (non-empty) `apiKey`;
an empty list is a construction-time fatal error; the cursor starts at 0. -/
def initializeProviders (config : StockProviderFactoryConfig) :
    Except SvcError (StockProviderFactory BuiltProvider) :=
  let providers := builtProviders config
  if providers.length = 0 then
    .error (.jsError
      "No stock providers configured. Please configure at least one provider (FMP or Finnhub).")
  else
    .ok { providers := providers, currentProviderIndex := 0 }

end StockProviderFactory

namespace StocksService

/-- The fixed in-memory mock catalog of `getMockSearchResults`. -/
def mockStocks : List Stock :=
  [ { symbol := "AAPL", name := "Apple Inc.", price := 150.25, change := 2.45,
      changePercent := 1.66, volume := 52000000, marketCap := 2800000000000,
      pe := 28.5, eps := 5.27 },
    { symbol := "GOOGL", name := "Alphabet Inc.", price := 2750.80, change := -12.30,
      changePercent := -0.44, volume := 1200000, marketCap := 1900000000000,
      pe := 22.8, eps := 120.65 },
    { symbol := "MSFT", name := "Microsoft Corporation", price := 405.90, change := 5.20,
      changePercent := 1.30, volume := 28000000, marketCap := 3000000000000,
      pe := 35.2, eps := 11.53 },
    { symbol := "TSLA", name := "Tesla Inc.", price := 220.50, change := -8.75,
      changePercent := -3.82, volume := 45000000, marketCap := 700000000000,
      pe := 45.8, eps := 4.81 },
    { symbol := "AMZN", name := "Amazon.com Inc.", price := 135.25, change := 3.20,
      changePercent := 2.42, volume := 35000000, marketCap := 1400000000000,
      pe := 55.2, eps := 2.45 } ]

/-- The filter predicate of `getMockSearchResults`:
`stock.symbol.toLowerCase().includes(query.toLowerCase()) ||
 stock.name.toLowerCase().includes(query.toLowerCase())`. -/
def mockMatches (query : String) (stock : Stock) : Bool :=
  jsIncludes stock.symbol.toLower query.toLower ||
  jsIncludes stock.name.toLower query.toLower

/-- Embeds `StocksService.getMockSearchResults`: the catalog filtered by
case-insensitive substring match on symbol or name, falling back to the
first three entries (`slice(0, 3)`) when nothing matches. -/
def getMockSearchResults (query : String) : List Stock :=
  let filteredStocks := mockStocks.filter (mockMatches query)
  if 0 < filteredStocks.length then filteredStocks else mockStocks.take 3

/-- Embeds `StocksService.getMockStock`: look the symbol up in the catalog (the
query `''` matches every entry), with a generic mock record as default. -/
def getMockStock (symbol : String) : Stock :=
  let results := getMockSearchResults ""
  match results.find? (fun stock => stock.symbol = symbol) with
  | some found => found
  | none =>
    { symbol := symbol, name := symbol ++ " Company (Mock)", price := 100.00,
      change := 1.50, changePercent := 1.52, volume := 1000000,
      marketCap := 1000000000, pe := 20.0, eps := 5.00 }

/-- Embeds `StocksService.getMockStockDetail`: the mock quote plus fixed mock
descriptive fields. -/
def getMockStockDetail (symbol : String) : StockDetail :=
  let mockStock := getMockStock symbol
  { symbol := mockStock.symbol
    name := mockStock.name
    price := mockStock.price
    change := mockStock.change
    changePercent := mockStock.changePercent
    volume := mockStock.volume
    marketCap := mockStock.marketCap
    pe := mockStock.pe
    eps := mockStock.eps
    description := some (mockStock.name ++ " is a leading technology company (Mock Data)")
    sector := some "Technology"
    industry := some "Software"
    website := some "https://example.com"
    ceo := some "Mock CEO"
    employees := some 150000
    headquarters := some "Cupertino, CA"
    founded := none }

/-- The body of each service `try` block: select a provider via
`getCurrentProvider`, then run the provider operation on it.  A cursor write
performed by a successful selection persists even when the subsequent
provider operation fails. -/
def rawProviderCall {P α : Type} (avail : P → Bool)
    (op : P → Except SvcError α) (st : StockProviderFactory P) :
    Except SvcError α × StockProviderFactory P :=
  match StockProviderFactory.getCurrentProvider avail st with
  | (.ok provider, st1) => (op provider, st1)
  | (.error e, st1) => (.error e, st1)

/-- The `catch` block shared by the three service operations: an
`HttpException` with status ServiceUnavailable becomes a successful mock
response; every other error is re-thrown. -/
def catchWithMock {α : Type} (result : Except SvcError α) (mock : α) :
    Except SvcError α :=
  match result with
  | .ok value => .ok value
  | .error e => if e.isServiceUnavailable then .ok mock else .error e

/-- Embeds `StocksService.searchStocks`. -/
def searchStocks {P : Type} (avail : P → Bool)
    (searchOp : P → Except SvcError (List Stock))
    (st : StockProviderFactory P) (query : String) :
    Except SvcError (List Stock) × StockProviderFactory P :=
  let (result, st1) := rawProviderCall avail searchOp st
  (catchWithMock result (getMockSearchResults query), st1)

/-- Embeds `StocksService.getStockDetail`. -/
def getStockDetail {P : Type} (avail : P → Bool)
    (detailOp : P → Except SvcError StockDetail)
    (st : StockProviderFactory P) (symbol : String) :
    Except SvcError StockDetail × StockProviderFactory P :=
  let (result, st1) := rawProviderCall avail detailOp st
  (catchWithMock result (getMockStockDetail symbol), st1)

/-- Embeds `StocksService.getStockQuote`. -/
def getStockQuote {P : Type} (avail : P → Bool)
    (quoteOp : P → Except SvcError Stock)
    (st : StockProviderFactory P) (symbol : String) :
    Except SvcError Stock × StockProviderFactory P :=
  let (result, st1) := rawProviderCall avail quoteOp st
  (catchWithMock result (getMockStock symbol), st1)

end StocksService

namespace StockProviderFactory

lemma scanFrom_eq_none {P : Type} (avail : P → Bool) (l : List P)
    (h : ∀ p ∈ l, avail p = false) (n : Nat) : scanFrom avail l n = none := by
  induction l generalizing n with
  | nil => rfl
  | cons q qs ih =>
    have hq : avail q = false := h q (List.mem_cons_self q qs)
    simp only [scanFrom, hq, Bool.false_eq_true, if_false]
    exact ih (fun p hp => h p (List.mem_cons_of_mem q hp)) (n + 1)

lemma scanFrom_some {P : Type} (avail : P → Bool) (l : List P) (n i : Nat)
    (p : P) (h : scanFrom avail l n = some (i, p)) :
    avail p = true ∧ p ∈ l ∧ n ≤ i ∧ i < n + l.length := by
  induction l generalizing n with
  | nil => simp [scanFrom] at h
  | cons q qs ih =>
    by_cases hq : avail q = true
    · simp only [scanFrom, hq, if_true, Option.some.injEq, Prod.mk.injEq] at h
      obtain ⟨rfl, rfl⟩ := h
      exact ⟨hq, List.mem_cons_self q qs, Nat.le_refl n,
        Nat.lt_add_of_pos_right (by simp)⟩
    · simp only [scanFrom, hq, if_false] at h
      obtain ⟨h1, h2, h3, h4⟩ := ih (n + 1) h
      refine ⟨h1, List.mem_cons_of_mem q h2, Nat.le_of_succ_le h3, ?_⟩
      simpa [Nat.add_comm, Nat.add_left_comm, Nat.add_assoc] using h4

lemma scanFrom_find? {P : Type} (avail : P → Bool) (l : List P) (n i : Nat)
    (p : P) (h : scanFrom avail l n = some (i, p)) : l.find? avail = some p := by
  induction l generalizing n with
  | nil => simp [scanFrom] at h
  | cons q qs ih =>
    by_cases hq : avail q = true
    · simp only [scanFrom, hq, if_true, Option.some.injEq, Prod.mk.injEq] at h
      obtain ⟨rfl, rfl⟩ := h
      simp [List.find?, hq]
    · simp only [scanFrom, hq, if_false] at h
      simp only [List.find?, hq]
      exact ih (n + 1) h

lemma scanFrom_first {P : Type} (avail : P → Bool) (l : List P) (i : Nat)
    (p : P) (hget : l.get? i = some p) (hp : avail p = true)
    (hleast : ∀ j q, j < i → l.get? j = some q → avail q = false) (n : Nat) :
    scanFrom avail l n = some (n + i, p) := by
  induction l generalizing n i with
  | nil => simp at hget
  | cons q qs ih =>
    cases i with
    | zero =>
      simp only [List.get?_cons_zero, Option.some.injEq] at hget
      subst hget
      simp [scanFrom, hp]
    | succ j =>
      have hq : avail q = false :=
        hleast 0 q (Nat.succ_pos j) (by simp)
      simp only [scanFrom, hq, Bool.false_eq_true, if_false]
      have := ih j (by simpa using hget)
        (fun k r hk hr => hleast (k + 1) r (Nat.succ_lt_succ hk) (by simpa using hr))
        (n + 1)
      simpa [Nat.add_comm, Nat.add_left_comm, Nat.add_assoc] using this

lemma getCurrentProvider_all_unavailable {P : Type} (avail : P → Bool)
    (st : StockProviderFactory P)
    (hcur : st.currentProviderIndex < st.providers.length)
    (h : ∀ p ∈ st.providers, avail p = false) :
    getCurrentProvider avail st =
      (.error (.http "All stock providers are currently unavailable"
        .serviceUnavailable), st) := by
  have hlen : st.providers.length ≠ 0 := by omega
  obtain ⟨cur, hget⟩ : ∃ cur, st.providers.get? st.currentProviderIndex = some cur :=
    ⟨_, List.get?_eq_get hcur⟩
  have hcurFalse : avail cur = false := h cur (List.get?_mem hget)
  have hget2 : st.providers[st.currentProviderIndex]? = some cur := by
    simpa [← List.get?_eq_getElem?] using hget
  simp [getCurrentProvider, hlen, hget2, hcurFalse,
    scanFrom_eq_none avail st.providers h 0]

lemma getCurrentProvider_empty {P : Type} (avail : P → Bool)
    (st : StockProviderFactory P) (h : st.providers = []) :
    getCurrentProvider avail st =
      (.error (.http "No stock providers available" .serviceUnavailable), st) := by
  simp [getCurrentProvider, h]

lemma getCurrentProvider_current_available {P : Type} (avail : P → Bool)
    (st : StockProviderFactory P) (cur : P)
    (hget : st.providers.get? st.currentProviderIndex = some cur)
    (hcur : avail cur = true) :
    getCurrentProvider avail st = (.ok cur, st) := by
  have hlen : st.providers.length ≠ 0 := by
    have := List.ne_nil_of_mem (List.get?_mem hget)
    simpa [List.length_eq_zero] using this
  have hget2 : st.providers[st.currentProviderIndex]? = some cur := by
    simpa [← List.get?_eq_getElem?] using hget
  simp [getCurrentProvider, hlen, hget2, hcur]

lemma getCurrentProvider_scan {P : Type} (avail : P → Bool)
    (st : StockProviderFactory P) (cur : P)
    (hget : st.providers.get? st.currentProviderIndex = some cur)
    (hcur : avail cur = false) (i : Nat) (p : P)
    (hgi : st.providers.get? i = some p) (hp : avail p = true)
    (hleast : ∀ j q, j < i → st.providers.get? j = some q → avail q = false) :
    getCurrentProvider avail st = (.ok p, { st with currentProviderIndex := i }) := by
  have hlen : st.providers.length ≠ 0 := by
    have := List.ne_nil_of_mem (List.get?_mem hget)
    simpa [List.length_eq_zero] using this
  have hget2 : st.providers[st.currentProviderIndex]? = some cur := by
    simpa [← List.get?_eq_getElem?] using hget
  have hscan : scanFrom avail st.providers 0 = some (i, p) := by
    simpa using scanFrom_first avail st.providers i p hgi hp hleast 0
  simp [getCurrentProvider, hlen, hget2, hcur, hscan]

lemma switchToNextProvider_iterate {P : Type} (st : StockProviderFactory P)
    (hcur : st.currentProviderIndex < st.providers.length) (k : Nat) :
    switchToNextProvider^[k] st =
      { providers := st.providers,
        currentProviderIndex := (st.currentProviderIndex + k) % st.providers.length } := by
  induction k with
  | zero =>
    simp only [Function.iterate_zero, id_eq]
    cases st with
    | mk providers idx =>
      simp only [StockProviderFactory.mk.injEq, true_and]
      exact (Nat.mod_eq_of_lt hcur).symm
  | succ k ih =>
    rw [Function.iterate_succ_apply', ih]
    by_cases hlen : 1 < st.providers.length
    · simp only [switchToNextProvider, hlen, if_true]
      simp [Nat.mod_add_mod, Nat.add_assoc]
    · have h1 : st.providers.length = 1 := by
        have h0 : 0 < st.providers.length := Nat.lt_of_le_of_lt (Nat.zero_le _) hcur
        omega
      simp only [switchToNextProvider, hlen, if_false, h1, Nat.mod_one]
      split <;> rfl

end StockProviderFactory


/-- C1: with at least one configured adapter, `getCurrentProvider` first
probes the adapter at the cursor; if that probe is true it returns that
adapter with the cursor unmoved; if it is false it returns the first adapter
(in index order from 0) whose probe is true, pinning the cursor to that
adapter's index. -/
theorem claim_C1_getCurrentProvider_probe_then_scan {P : Type}
    (avail : P → Bool) (st : StockProviderFactory P) (cur : P)
    (hget : st.providers.get? st.currentProviderIndex = some cur) :
    (avail cur = true →
      StockProviderFactory.getCurrentProvider avail st = (.ok cur, st)) ∧
    (avail cur = false → ∀ i p, st.providers.get? i = some p → avail p = true →
      (∀ j q, j < i → st.providers.get? j = some q → avail q = false) →
      StockProviderFactory.getCurrentProvider avail st =
        (.ok p, { st with currentProviderIndex := i })) := by
  constructor
  · intro hcur
    exact StockProviderFactory.getCurrentProvider_current_available avail st cur hget hcur
  · intro hcur i p hgi hp hleast
    exact StockProviderFactory.getCurrentProvider_scan avail st cur hget hcur i p hgi hp hleast

/-- C1 witness: two adapters, adapter 0 probe false, adapter 1 probe true;
from cursor 0, `getCurrentProvider` returns adapter 1 and the cursor
becomes 1. -/
theorem claim_C1_witness :
    (([false, true] : List Bool).get? 0 = some false) ∧
    ((fun b : Bool => b) false = false) ∧
    StockProviderFactory.getCurrentProvider (fun b : Bool => b)
        (StockProviderFactory.mk [false, true] 0) =
      (.ok true, StockProviderFactory.mk [false, true] 1) := by
  refine ⟨rfl, rfl, ?_⟩
  exact (claim_C1_getCurrentProvider_probe_then_scan (fun b : Bool => b)
      (StockProviderFactory.mk [false, true] 0) false rfl).2 rfl 1 true rfl rfl
    (fun j q hj hq => by
      have hj0 : j = 0 := by omega
      subst hj0
      simp only [List.get?_cons_zero, Option.some.injEq] at hq
      subst hq
      rfl)

/-- C3: when no adapter's probe returns true, `getCurrentProvider` fails
with a ServiceUnavailable `HttpException`, while `getProviderWithFallback`
returns the adapter at index 0 without failing. -/
theorem claim_C3_unavailable_vs_fallback {P : Type} (avail : P → Bool)
    (st : StockProviderFactory P) (p0 : P)
    (hcur : st.currentProviderIndex < st.providers.length)
    (hall : ∀ p ∈ st.providers, avail p = false)
    (h0 : st.providers.head? = some p0) :
    StockProviderFactory.getCurrentProvider avail st =
      (.error (.http "All stock providers are currently unavailable"
        .serviceUnavailable), st) ∧
    StockProviderFactory.getProviderWithFallback avail st = (.ok p0, st) := by
  have hmain := StockProviderFactory.getCurrentProvider_all_unavailable avail st hcur hall
  refine ⟨hmain, ?_⟩
  simp [StockProviderFactory.getProviderWithFallback, hmain, h0]

/-- C3 witness: two adapters, both probes false, cursor 1:
`getCurrentProvider` throws ServiceUnavailable and
`getProviderWithFallback` returns adapter 0. -/
theorem claim_C3_witness :
    ((1 : Nat) < ([10, 20] : List Nat).length) ∧
    (∀ p ∈ ([10, 20] : List Nat), (fun _ : Nat => false) p = false) ∧
    StockProviderFactory.getCurrentProvider (fun _ : Nat => false)
        (StockProviderFactory.mk [10, 20] 1) =
      (.error (.http "All stock providers are currently unavailable"
        .serviceUnavailable), StockProviderFactory.mk [10, 20] 1) ∧
    StockProviderFactory.getProviderWithFallback (fun _ : Nat => false)
        (StockProviderFactory.mk [10, 20] 1) =
      (.ok 10, StockProviderFactory.mk [10, 20] 1) := by
  have h := claim_C3_unavailable_vs_fallback (fun _ : Nat => false)
    (StockProviderFactory.mk [10, 20] 1) 10 (by decide)
    (fun p _ => rfl) rfl
  exact ⟨by decide, fun p _ => rfl, h.1, h.2⟩

/-- C4: if the probe of the adapter at the cursor returns false, then any
adapter `getCurrentProvider` returns is available, is the first available
adapter in index order from 0 (`List.find?`), and is not that cursor
adapter; when every adapter's probe is false the call fails instead of
returning the cursor adapter. -/
theorem claim_C4_never_returns_unavailable_current {P : Type}
    (avail : P → Bool) (st : StockProviderFactory P) (cur : P)
    (hget : st.providers.get? st.currentProviderIndex = some cur)
    (hcur : avail cur = false) :
    (∀ p st1, StockProviderFactory.getCurrentProvider avail st = (.ok p, st1) →
      avail p = true ∧ st.providers.find? avail = some p ∧ p ≠ cur) ∧
    ((∀ q ∈ st.providers, avail q = false) →
      StockProviderFactory.getCurrentProvider avail st =
        (.error (.http "All stock providers are currently unavailable"
          .serviceUnavailable), st)) := by
  constructor
  · intro p st1 h
    have hlen : st.providers.length ≠ 0 := by
      have := List.ne_nil_of_mem (List.get?_mem hget)
      simpa [List.length_eq_zero] using this
    have hget2 : st.providers[st.currentProviderIndex]? = some cur := by
      simpa [← List.get?_eq_getElem?] using hget
    have hmain : avail p = true ∧ st.providers.find? avail = some p := by
      rcases hscan : StockProviderFactory.scanFrom avail st.providers 0 with _ | ⟨i, q⟩
      · simp [StockProviderFactory.getCurrentProvider, hlen, hget2, hcur, hscan] at h
      · have hq := (StockProviderFactory.scanFrom_some avail st.providers 0 i q hscan).1
        have hfind := StockProviderFactory.scanFrom_find? avail st.providers 0 i q hscan
        simp [StockProviderFactory.getCurrentProvider, hlen, hget2, hcur, hscan] at h
        rcases h with ⟨rfl, _⟩
        exact ⟨hq, hfind⟩
    obtain ⟨havail, hfind⟩ := hmain
    refine ⟨havail, hfind, ?_⟩
    intro hpc
    rw [hpc] at havail
    rw [havail] at hcur
    simp at hcur
  · intro hall
    have hlt : st.currentProviderIndex < st.providers.length := by
      rcases List.get?_eq_some.mp hget with ⟨hlt, _⟩
      exact hlt
    exact StockProviderFactory.getCurrentProvider_all_unavailable avail st hlt hall

/-- C4 witness: cursor adapter unavailable; the returned adapter is
available, is the scan's first available adapter, and differs from the
cursor adapter. -/
theorem claim_C4_witness :
    (([false, true] : List Bool).get? 0 = some false) ∧
    ((fun b : Bool => b) false = false) ∧
    ((fun b : Bool => b) true = true ∧
      ([false, true] : List Bool).find? (fun b : Bool => b) = some true ∧
      true ≠ false) := by
  refine ⟨rfl, rfl, ?_⟩
  exact (claim_C4_never_returns_unavailable_current (fun b : Bool => b)
      (StockProviderFactory.mk [false, true] 0) false rfl rfl).1 true
    (StockProviderFactory.mk [false, true] 1) rfl

/-- C5: `switchToNextProvider` advances the cursor to `(cursor + 1) mod N`
(taking no probe into account), is a no-op with a single adapter, and
composing it N times is the identity on the registry state. -/
theorem claim_C5_cyclic_increment {P : Type} (st : StockProviderFactory P)
    (hcur : st.currentProviderIndex < st.providers.length) :
    (StockProviderFactory.switchToNextProvider st).currentProviderIndex =
      (st.currentProviderIndex + 1) % st.providers.length ∧
    (st.providers.length = 1 → StockProviderFactory.switchToNextProvider st = st) ∧
    StockProviderFactory.switchToNextProvider^[st.providers.length] st = st := by
  refine ⟨?_, ?_, ?_⟩
  · have h := StockProviderFactory.switchToNextProvider_iterate st hcur 1
    simpa using congrArg StockProviderFactory.currentProviderIndex h
  · intro h1
    simp [StockProviderFactory.switchToNextProvider, h1]
  · rw [StockProviderFactory.switchToNextProvider_iterate st hcur st.providers.length]
    have : (st.currentProviderIndex + st.providers.length) % st.providers.length =
        st.currentProviderIndex := by
      rw [Nat.add_mod_right]
      exact Nat.mod_eq_of_lt hcur
    rw [this]

/-- C5 witness: three adapters, cursor 1: one switch moves the cursor to 2,
and three switches return the state unchanged. -/
theorem claim_C5_witness :
    ((1 : Nat) < ([7, 8, 9] : List Nat).length) ∧
    (StockProviderFactory.switchToNextProvider
       (StockProviderFactory.mk [7, 8, 9] 1)).currentProviderIndex = (1 + 1) % 3 ∧
    StockProviderFactory.switchToNextProvider^[3]
      (StockProviderFactory.mk [7, 8, 9] 1) = StockProviderFactory.mk [7, 8, 9] 1 := by
  have h := claim_C5_cyclic_increment (StockProviderFactory.mk [7, 8, 9] 1) (by decide)
  exact ⟨by decide, h.1, h.2.2⟩

namespace StocksService

lemma searchStocks_fst {P : Type} (avail : P → Bool)
    (searchOp : P → Except SvcError (List Stock)) (st : StockProviderFactory P)
    (query : String) :
    (searchStocks avail searchOp st query).1 =
      catchWithMock (rawProviderCall avail searchOp st).1
        (getMockSearchResults query) := rfl

lemma getStockDetail_fst {P : Type} (avail : P → Bool)
    (detailOp : P → Except SvcError StockDetail) (st : StockProviderFactory P)
    (symbol : String) :
    (getStockDetail avail detailOp st symbol).1 =
      catchWithMock (rawProviderCall avail detailOp st).1
        (getMockStockDetail symbol) := rfl

lemma getStockQuote_fst {P : Type} (avail : P → Bool)
    (quoteOp : P → Except SvcError Stock) (st : StockProviderFactory P)
    (symbol : String) :
    (getStockQuote avail quoteOp st symbol).1 =
      catchWithMock (rawProviderCall avail quoteOp st).1 (getMockStock symbol) := rfl

lemma catchWithMock_error {α : Type} (e : SvcError) (mock : α) :
    catchWithMock (.error e) mock =
      (if e.isServiceUnavailable then .ok mock else .error e) := rfl

lemma getMockSearchResults_eq (query : String) :
    getMockSearchResults query =
      (if mockStocks.filter (mockMatches query) = [] then mockStocks.take 3
       else mockStocks.filter (mockMatches query)) := by
  unfold getMockSearchResults
  cases h : mockStocks.filter (mockMatches query) <;> simp [h]

end StocksService

/-- C2: in each of the three service operations, a failure carrying
ServiceUnavailable is recovered into a successful mock-data response, and
every other error is re-thrown to the caller unchanged. -/
theorem claim_C2_service_unavailable_recovered {P : Type} (avail : P → Bool)
    (st : StockProviderFactory P) (query symbol quoteSymbol : String)
    (searchOp : P → Except SvcError (List Stock))
    (detailOp : P → Except SvcError StockDetail)
    (quoteOp : P → Except SvcError Stock) (e : SvcError) :
    ((StocksService.rawProviderCall avail searchOp st).1 = .error e →
      (StocksService.searchStocks avail searchOp st query).1 =
        (if e.isServiceUnavailable then .ok (StocksService.getMockSearchResults query)
         else .error e)) ∧
    ((StocksService.rawProviderCall avail detailOp st).1 = .error e →
      (StocksService.getStockDetail avail detailOp st symbol).1 =
        (if e.isServiceUnavailable then .ok (StocksService.getMockStockDetail symbol)
         else .error e)) ∧
    ((StocksService.rawProviderCall avail quoteOp st).1 = .error e →
      (StocksService.getStockQuote avail quoteOp st quoteSymbol).1 =
        (if e.isServiceUnavailable then .ok (StocksService.getMockStock quoteSymbol)
         else .error e)) := by
  refine ⟨?_, ?_, ?_⟩
  · intro h
    rw [StocksService.searchStocks_fst, h, StocksService.catchWithMock_error]
  · intro h
    rw [StocksService.getStockDetail_fst, h, StocksService.catchWithMock_error]
  · intro h
    rw [StocksService.getStockQuote_fst, h, StocksService.catchWithMock_error]

/-- C2 witness: with the lone adapter unavailable the selection fails with
ServiceUnavailable and `searchStocks` answers with mock data; with the
adapter available and the provider call failing with NotFound,
`getStockQuote` re-throws exactly that error. -/
theorem claim_C2_witness :
    ((StocksService.rawProviderCall (fun _ : Unit => false)
        (fun _ => .ok ([] : List Stock)) (StockProviderFactory.mk [()] 0)).1 =
      .error (.http "All stock providers are currently unavailable"
        .serviceUnavailable)) ∧
    (StocksService.searchStocks (fun _ : Unit => false)
        (fun _ => .ok ([] : List Stock)) (StockProviderFactory.mk [()] 0) "appl").1 =
      .ok (StocksService.getMockSearchResults "appl") ∧
    ((StocksService.rawProviderCall (fun _ : Unit => true)
        (fun _ => .error (.http "Stock not found" .notFound) :
          Unit → Except SvcError Stock) (StockProviderFactory.mk [()] 0)).1 =
      .error (.http "Stock not found" .notFound)) ∧
    (StocksService.getStockQuote (fun _ : Unit => true)
        (fun _ => .error (.http "Stock not found" .notFound))
        (StockProviderFactory.mk [()] 0) "AAPL").1 =
      .error (.http "Stock not found" .notFound) := by
  refine ⟨rfl, ?_, rfl, ?_⟩
  · exact (claim_C2_service_unavailable_recovered (fun _ : Unit => false)
      (StockProviderFactory.mk [()] 0) "appl" "A" "A"
      (fun _ => .ok ([] : List Stock)) (fun _ => .error (.jsError "x"))
      (fun _ => .error (.jsError "x"))
      (.http "All stock providers are currently unavailable" .serviceUnavailable)).1 rfl
  · exact (claim_C2_service_unavailable_recovered (fun _ : Unit => true)
      (StockProviderFactory.mk [()] 0) "appl" "A" "AAPL"
      (fun _ => .ok ([] : List Stock)) (fun _ => .error (.jsError "x"))
      (fun _ => .error (.http "Stock not found" .notFound))
      (.http "Stock not found" .notFound)).2.2 rfl

/-- C8: with every configured adapter unavailable (or none configured),
`searchStocks` succeeds with exactly the mock-catalog entries whose symbol
or name contains the query case-insensitively, in catalog order, falling
back to the first three catalog entries when nothing matches. -/
theorem claim_C8_mock_search_fallback {P : Type} (avail : P → Bool)
    (searchOp : P → Except SvcError (List Stock)) (st : StockProviderFactory P)
    (query : String)
    (hst : st.currentProviderIndex < st.providers.length ∨ st.providers = [])
    (hall : ∀ p ∈ st.providers, avail p = false) :
    (StocksService.searchStocks avail searchOp st query).1 =
      .ok (if StocksService.mockStocks.filter (StocksService.mockMatches query) = []
           then StocksService.mockStocks.take 3
           else StocksService.mockStocks.filter (StocksService.mockMatches query)) := by
  rw [StocksService.searchStocks_fst, ← StocksService.getMockSearchResults_eq]
  rcases hst with h | h
  · have hmain := StockProviderFactory.getCurrentProvider_all_unavailable avail st h hall
    have hraw : (StocksService.rawProviderCall avail searchOp st).1 =
        .error (.http "All stock providers are currently unavailable"
          .serviceUnavailable) := by
      simp [StocksService.rawProviderCall, hmain]
    rw [hraw, StocksService.catchWithMock_error]
    rfl
  · have hmain := StockProviderFactory.getCurrentProvider_empty avail st h
    have hraw : (StocksService.rawProviderCall avail searchOp st).1 =
        .error (.http "No stock providers available" .serviceUnavailable) := by
      simp [StocksService.rawProviderCall, hmain]
    rw [hraw, StocksService.catchWithMock_error]
    rfl

/-- C8 witness: one adapter, probe false, query "appl": the service answers
with the filtered mock catalog (here the single entry matching on the name
"Apple Inc."). -/
theorem claim_C8_witness :
    ((0 : Nat) < ([()] : List Unit).length ∨ ([()] : List Unit) = []) ∧
    (∀ p ∈ ([()] : List Unit), (fun _ : Unit => false) p = false) ∧
    (StocksService.searchStocks (fun _ : Unit => false)
        (fun _ => .ok ([] : List Stock)) (StockProviderFactory.mk [()] 0) "appl").1 =
      .ok (if StocksService.mockStocks.filter (StocksService.mockMatches "appl") = []
           then StocksService.mockStocks.take 3
           else StocksService.mockStocks.filter (StocksService.mockMatches "appl")) := by
  refine ⟨Or.inl (by decide), fun p _ => rfl, ?_⟩
  exact claim_C8_mock_search_fallback (fun _ : Unit => false)
    (fun _ => .ok ([] : List Stock)) (StockProviderFactory.mk [()] 0) "appl"
    (Or.inl (by decide)) (fun p _ => rfl)

lemma defaultsToZero_jsOrNum (a : Option ℚ) : defaultsToZero a (jsOrNum a 0) := by
  constructor
  · intro x hx
    simp only [jsOrNum, hx]
    by_cases h0 : x = 0
    · simp [h0]
    · simp [h0]
  · intro hn
    simp [jsOrNum, hn]

/-- C6: in both adapters `getStockDetail` issues the quote and the profile
request independently (neither waits on the other, modelled by taking both
responses as independent inputs); a failed quote request fails the whole
call, while a failed profile request alone yields a successful detail whose
`sector`, `industry` and `website` are `undefined` and whose base quote
fields all agree with the quote transform. -/
theorem claim_C6_detail_profile_degradation
    (quoteResponse : HttpResponse (List FMPStock))
    (profileResponse : HttpResponse (List FMPCompanyProfile))
    (symbol : String) (finnQuoteResponse : HttpResponse (Option FinnhubQuote))
    (finnProfileResponse : HttpResponse (Option FinnhubCompanyProfile)) :
    (quoteResponse.ok = false →
      FMPStockProvider.getStockDetail quoteResponse profileResponse =
        .error (.http "Failed to fetch stock data" .badRequest)) ∧
    (∀ fmpStock, quoteResponse.ok = true → profileResponse.ok = false →
      quoteResponse.body.head? = some fmpStock →
      FMPStockProvider.getStockDetail quoteResponse profileResponse =
        .ok (FMPStockProvider.transformFMPDataToStockDetail fmpStock none) ∧
      (FMPStockProvider.transformFMPDataToStockDetail fmpStock none).sector = none ∧
      (FMPStockProvider.transformFMPDataToStockDetail fmpStock none).industry = none ∧
      (FMPStockProvider.transformFMPDataToStockDetail fmpStock none).website = none ∧
      (FMPStockProvider.transformFMPDataToStockDetail fmpStock none).baseQuote =
        FMPStockProvider.transformFMPStockToStock fmpStock) ∧
    (finnQuoteResponse.ok = false →
      FinnhubStockProvider.getStockDetail symbol finnQuoteResponse finnProfileResponse =
        .error (.http "Failed to fetch stock data" .badRequest)) ∧
    (∀ quote c, finnQuoteResponse.ok = true → finnProfileResponse.ok = false →
      finnQuoteResponse.body = some quote → quote.c = some c →
      FinnhubStockProvider.getStockDetail symbol finnQuoteResponse finnProfileResponse =
        .ok (FinnhubStockProvider.transformFinnhubDataToStockDetail symbol quote none) ∧
      (FinnhubStockProvider.transformFinnhubDataToStockDetail symbol quote none).sector
        = none ∧
      (FinnhubStockProvider.transformFinnhubDataToStockDetail symbol quote none).industry
        = none ∧
      (FinnhubStockProvider.transformFinnhubDataToStockDetail symbol quote none).website
        = none ∧
      (FinnhubStockProvider.transformFinnhubDataToStockDetail symbol quote none).baseQuote
        = FinnhubStockProvider.transformFinnhubQuoteToStock symbol quote) := by
  refine ⟨?_, ?_, ?_, ?_⟩
  · intro h
    simp [FMPStockProvider.getStockDetail, h]
  · intro fmpStock hq hp hhead
    refine ⟨?_, rfl, rfl, rfl, ?_⟩
    · simp [FMPStockProvider.getStockDetail, hq, hp, hhead]
    · simp [StockDetail.baseQuote, FMPStockProvider.transformFMPDataToStockDetail]
  · intro h
    simp [FinnhubStockProvider.getStockDetail, h]
  · intro quote c hq hp hbody hc
    refine ⟨?_, rfl, ?_, ?_, ?_⟩
    · simp [FinnhubStockProvider.getStockDetail, hq, hp, hbody, hc]
    · simp [FinnhubStockProvider.transformFinnhubDataToStockDetail]
    · simp [FinnhubStockProvider.transformFinnhubDataToStockDetail]
    · simp [StockDetail.baseQuote,
        FinnhubStockProvider.transformFinnhubDataToStockDetail,
        FinnhubStockProvider.transformFinnhubQuoteToStock, jsOrStr]

/-- C6 witness: for each adapter, a successful quote response paired with a
failed profile response yields a successful detail with
sector/industry/website absent and the base quote fields intact. -/
theorem claim_C6_witness :
    ((HttpResponse.mk true [FMPStock.mk (some "AAPL") (some "Apple Inc.")
        (some 150) (some 2) (some 1) (some 52) (some 28) (some 28) (some 5)]).ok
      = true) ∧
    ((HttpResponse.mk false ([] : List FMPCompanyProfile)).ok = false) ∧
    FMPStockProvider.getStockDetail
        (HttpResponse.mk true [FMPStock.mk (some "AAPL") (some "Apple Inc.")
          (some 150) (some 2) (some 1) (some 52) (some 28) (some 28) (some 5)])
        (HttpResponse.mk false ([] : List FMPCompanyProfile)) =
      .ok (FMPStockProvider.transformFMPDataToStockDetail
        (FMPStock.mk (some "AAPL") (some "Apple Inc.") (some 150) (some 2)
          (some 1) (some 52) (some 28) (some 28) (some 5)) none) ∧
    FinnhubStockProvider.getStockDetail "AAPL"
        (HttpResponse.mk true (some (FinnhubQuote.mk (some 150) (some 2) (some 1))))
        (HttpResponse.mk false (none : Option FinnhubCompanyProfile)) =
      .ok (FinnhubStockProvider.transformFinnhubDataToStockDetail "AAPL"
        (FinnhubQuote.mk (some 150) (some 2) (some 1)) none) := by
  refine ⟨rfl, rfl, ?_, ?_⟩
  · exact ((claim_C6_detail_profile_degradation
      (HttpResponse.mk true [FMPStock.mk (some "AAPL") (some "Apple Inc.")
        (some 150) (some 2) (some 1) (some 52) (some 28) (some 28) (some 5)])
      (HttpResponse.mk false ([] : List FMPCompanyProfile)) "AAPL"
      (HttpResponse.mk true (some (FinnhubQuote.mk (some 150) (some 2) (some 1))))
      (HttpResponse.mk false (none : Option FinnhubCompanyProfile))).2.1
      (FMPStock.mk (some "AAPL") (some "Apple Inc.") (some 150) (some 2)
        (some 1) (some 52) (some 28) (some 28) (some 5)) rfl rfl rfl).1
  · exact ((claim_C6_detail_profile_degradation
      (HttpResponse.mk true [FMPStock.mk (some "AAPL") (some "Apple Inc.")
        (some 150) (some 2) (some 1) (some 52) (some 28) (some 28) (some 5)])
      (HttpResponse.mk false ([] : List FMPCompanyProfile)) "AAPL"
      (HttpResponse.mk true (some (FinnhubQuote.mk (some 150) (some 2) (some 1))))
      (HttpResponse.mk false (none : Option FinnhubCompanyProfile))).2.2.2
      (FinnhubQuote.mk (some 150) (some 2) (some 1)) 150 rfl rfl rfl rfl).1

/-- C7: for each adapter, `getStockQuote` either succeeds with a record in
which every field is total — the numeric fields carrying the vendor value
with `0` substituted for omitted ones (the `Stock` type of the embedding has
no optional field, so nothing missing, `null` or `undefined` can be
returned) — or fails with an `HttpException` whose status is NotFound or
BadRequest (the latter is the spec's UpstreamRequestFailed: the vendor call
came back non-2xx). -/
theorem claim_C7_quote_total_fields_or_error
    (response : HttpResponse (List FMPStock)) (symbol : String)
    (finnResponse : HttpResponse (Option FinnhubQuote)) :
    (∀ e, FMPStockProvider.getStockQuote response = .error e →
      e.status? = some .notFound ∨ e.status? = some .badRequest) ∧
    (∀ fmpStock, response.ok = true → response.body.head? = some fmpStock →
      FMPStockProvider.getStockQuote response =
        .ok (FMPStockProvider.transformFMPStockToStock fmpStock) ∧
      defaultsToZero fmpStock.price
        (FMPStockProvider.transformFMPStockToStock fmpStock).price ∧
      defaultsToZero fmpStock.change
        (FMPStockProvider.transformFMPStockToStock fmpStock).change ∧
      defaultsToZero fmpStock.changesPercentage
        (FMPStockProvider.transformFMPStockToStock fmpStock).changePercent ∧
      defaultsToZero fmpStock.volume
        (FMPStockProvider.transformFMPStockToStock fmpStock).volume ∧
      defaultsToZero fmpStock.marketCap
        (FMPStockProvider.transformFMPStockToStock fmpStock).marketCap ∧
      defaultsToZero fmpStock.pe
        (FMPStockProvider.transformFMPStockToStock fmpStock).pe ∧
      defaultsToZero fmpStock.eps
        (FMPStockProvider.transformFMPStockToStock fmpStock).eps) ∧
    (∀ e, FinnhubStockProvider.getStockQuote symbol finnResponse = .error e →
      e.status? = some .notFound ∨ e.status? = some .badRequest) ∧
    (∀ quote c, finnResponse.ok = true → finnResponse.body = some quote →
      quote.c = some c →
      FinnhubStockProvider.getStockQuote symbol finnResponse =
        .ok (FinnhubStockProvider.transformFinnhubQuoteToStock symbol quote) ∧
      defaultsToZero quote.c
        (FinnhubStockProvider.transformFinnhubQuoteToStock symbol quote).price ∧
      defaultsToZero quote.d
        (FinnhubStockProvider.transformFinnhubQuoteToStock symbol quote).change ∧
      defaultsToZero quote.dp
        (FinnhubStockProvider.transformFinnhubQuoteToStock symbol quote).changePercent ∧
      (FinnhubStockProvider.transformFinnhubQuoteToStock symbol quote).volume = 0 ∧
      (FinnhubStockProvider.transformFinnhubQuoteToStock symbol quote).marketCap = 0 ∧
      (FinnhubStockProvider.transformFinnhubQuoteToStock symbol quote).pe = 0 ∧
      (FinnhubStockProvider.transformFinnhubQuoteToStock symbol quote).eps = 0) := by
  refine ⟨?_, ?_, ?_, ?_⟩
  · intro e he
    unfold FMPStockProvider.getStockQuote at he
    split at he
    · right
      cases he
      rfl
    · split at he
      · left
        cases he
        rfl
      · simp at he
  · intro fmpStock hok hhead
    refine ⟨?_, defaultsToZero_jsOrNum _, defaultsToZero_jsOrNum _,
      defaultsToZero_jsOrNum _, defaultsToZero_jsOrNum _, defaultsToZero_jsOrNum _,
      defaultsToZero_jsOrNum _, defaultsToZero_jsOrNum _⟩
    simp [FMPStockProvider.getStockQuote, hok, hhead]
  · intro e he
    unfold FinnhubStockProvider.getStockQuote at he
    split at he
    · right
      cases he
      rfl
    · split at he
      · left
        cases he
        rfl
      · split at he
        · left
          cases he
          rfl
        · simp at he
  · intro quote c hok hbody hc
    refine ⟨?_, defaultsToZero_jsOrNum _, defaultsToZero_jsOrNum _,
      defaultsToZero_jsOrNum _, rfl, rfl, rfl, rfl⟩
    simp [FinnhubStockProvider.getStockQuote, hok, hbody, hc]

/-- C7 witness: a successful FMP response with every numeric field omitted
yields the all-zero quote; a Finnhub 404-style response fails with
BadRequest. -/
theorem claim_C7_witness :
    ((HttpResponse.mk true [FMPStock.mk (some "AAPL") none none none none none
        none none none]).ok = true) ∧
    FMPStockProvider.getStockQuote
        (HttpResponse.mk true [FMPStock.mk (some "AAPL") none none none none none
          none none none]) =
      .ok (FMPStockProvider.transformFMPStockToStock
        (FMPStock.mk (some "AAPL") none none none none none none none none)) ∧
    ((FMPStockProvider.transformFMPStockToStock
        (FMPStock.mk (some "AAPL") none none none none none none none none)).price
      = 0) ∧
    ((SvcError.http "Failed to fetch stock data" HttpStatus.badRequest).status? =
      some .notFound ∨
     (SvcError.http "Failed to fetch stock data" HttpStatus.badRequest).status? =
      some .badRequest) := by
  have h := claim_C7_quote_total_fields_or_error
    (HttpResponse.mk true [FMPStock.mk (some "AAPL") none none none none none
      none none none]) "AAPL"
    (HttpResponse.mk false (none : Option FinnhubQuote))
  have h2 := (h.2.1 (FMPStock.mk (some "AAPL") none none none none none
    none none none) rfl rfl)
  exact ⟨rfl, h2.1, (h2.2.1).2 rfl, h.2.2.1
    (.http "Failed to fetch stock data" HttpStatus.badRequest) rfl⟩

/-- C10: for every symbol and successful Finnhub quote, the returned
record's `name` is the input symbol and `volume`, `marketCap`, `pe`, `eps`
are hard-coded `0`, whatever the vendor sent. -/
theorem claim_C10_finnhub_quote_hardcoded_fields (symbol : String)
    (response : HttpResponse (Option FinnhubQuote)) (s : Stock)
    (h : FinnhubStockProvider.getStockQuote symbol response = .ok s) :
    s.name = symbol ∧ s.volume = 0 ∧ s.marketCap = 0 ∧ s.pe = 0 ∧ s.eps = 0 := by
  unfold FinnhubStockProvider.getStockQuote at h
  split at h
  · simp at h
  · split at h
    · simp at h
    · split at h
      · simp at h
      · cases h
        exact ⟨rfl, rfl, rfl, rfl, rfl⟩

/-- C10 witness: a Finnhub quote carrying a nonzero vendor payload still
comes back with `name` = symbol and zero volume/marketCap/pe/eps. -/
theorem claim_C10_witness :
    (FinnhubStockProvider.getStockQuote "TSLA"
        (HttpResponse.mk true (some (FinnhubQuote.mk (some 220) (some (-8)) (some (-3))))) =
      .ok (FinnhubStockProvider.transformFinnhubQuoteToStock "TSLA"
        (FinnhubQuote.mk (some 220) (some (-8)) (some (-3))))) ∧
    ((FinnhubStockProvider.transformFinnhubQuoteToStock "TSLA"
        (FinnhubQuote.mk (some 220) (some (-8)) (some (-3)))).name = "TSLA" ∧
     (FinnhubStockProvider.transformFinnhubQuoteToStock "TSLA"
        (FinnhubQuote.mk (some 220) (some (-8)) (some (-3)))).volume = 0 ∧
     (FinnhubStockProvider.transformFinnhubQuoteToStock "TSLA"
        (FinnhubQuote.mk (some 220) (some (-8)) (some (-3)))).marketCap = 0 ∧
     (FinnhubStockProvider.transformFinnhubQuoteToStock "TSLA"
        (FinnhubQuote.mk (some 220) (some (-8)) (some (-3)))).pe = 0 ∧
     (FinnhubStockProvider.transformFinnhubQuoteToStock "TSLA"
        (FinnhubQuote.mk (some 220) (some (-8)) (some (-3)))).eps = 0) := by
  refine ⟨rfl, ?_⟩
  exact claim_C10_finnhub_quote_hardcoded_fields "TSLA"
    (HttpResponse.mk true (some (FinnhubQuote.mk (some 220) (some (-8)) (some (-3)))))
    (FinnhubStockProvider.transformFinnhubQuoteToStock "TSLA"
      (FinnhubQuote.mk (some 220) (some (-8)) (some (-3)))) rfl

namespace StockProviderFactory

lemma getCurrentProvider_snd_cases {P : Type} (avail : P → Bool)
    (st : StockProviderFactory P) :
    (getCurrentProvider avail st).2 = st ∨
    ∃ i p, scanFrom avail st.providers 0 = some (i, p) ∧
      (getCurrentProvider avail st).2 = { st with currentProviderIndex := i } := by
  unfold getCurrentProvider
  by_cases hlen : st.providers.length = 0
  · simp [hlen]
  · simp only [hlen, if_false]
    cases hget : st.providers[st.currentProviderIndex]? with
    | none =>
      left
      simp [hget]
    | some cur =>
      by_cases hc : avail cur = true
      · left
        simp [hget, hc]
      · cases hscan : scanFrom avail st.providers 0 with
        | none =>
          left
          simp [hget, hc, hscan]
        | some ip =>
          obtain ⟨i, p⟩ := ip
          right
          exact ⟨i, p, rfl, by simp [hget, hc]⟩

lemma inv_getCurrentProvider {P : Type} (avail : P → Bool)
    (st : StockProviderFactory P)
    (h : st.currentProviderIndex < st.providers.length) :
    (getCurrentProvider avail st).2.currentProviderIndex <
      (getCurrentProvider avail st).2.providers.length := by
  rcases getCurrentProvider_snd_cases avail st with heq | ⟨i, p, hscan, heq⟩
  · rw [heq]
    exact h
  · rw [heq]
    have := (scanFrom_some avail st.providers 0 i p hscan).2.2.2
    simpa using this

lemma getProviderWithFallback_snd {P : Type} (avail : P → Bool)
    (st : StockProviderFactory P) :
    (getProviderWithFallback avail st).2 = (getCurrentProvider avail st).2 := by
  unfold getProviderWithFallback
  rcases hg : getCurrentProvider avail st with ⟨r, s⟩
  cases r with
  | ok p => rfl
  | error e =>
    cases hh : s.providers.head? with
    | none => simp [hh]
    | some p => simp [hh]

end StockProviderFactory

/-- C9 (implicit invariant): the cursor designates a configured adapter —
`currentProviderIndex < providers.length` — after a successful construction
and after each registry operation, given it held before. -/
theorem claim_C9_cursor_in_range (config : StockProviderFactoryConfig)
    (st0 : StockProviderFactory BuiltProvider) {P : Type} (avail : P → Bool)
    (name : P → String) (st : StockProviderFactory P)
    (hInv : st.currentProviderIndex < st.providers.length) :
    (StockProviderFactory.initializeProviders config = .ok st0 →
      st0.currentProviderIndex < st0.providers.length) ∧
    (StockProviderFactory.getCurrentProvider avail st).2.currentProviderIndex <
      (StockProviderFactory.getCurrentProvider avail st).2.providers.length ∧
    (StockProviderFactory.getProviderWithFallback avail st).2.currentProviderIndex <
      (StockProviderFactory.getProviderWithFallback avail st).2.providers.length ∧
    (StockProviderFactory.switchToNextProvider st).currentProviderIndex <
      (StockProviderFactory.switchToNextProvider st).providers.length ∧
    (StockProviderFactory.getProviderStatus avail name st).2.currentProviderIndex <
      (StockProviderFactory.getProviderStatus avail name st).2.providers.length := by
  refine ⟨?_, StockProviderFactory.inv_getCurrentProvider avail st hInv, ?_, ?_, hInv⟩
  · intro h
    unfold StockProviderFactory.initializeProviders at h
    by_cases hc : (StockProviderFactory.builtProviders config).length = 0
    · rw [if_pos hc] at h
      simp at h
    · rw [if_neg hc] at h
      cases h
      show 0 < (StockProviderFactory.builtProviders config).length
      omega
  · rw [StockProviderFactory.getProviderWithFallback_snd]
    exact StockProviderFactory.inv_getCurrentProvider avail st hInv
  · unfold StockProviderFactory.switchToNextProvider
    split
    · simp only
      exact Nat.mod_lt _ (by omega)
    · exact hInv

/-- C9 witness: a config with only an FMP key constructs a registry with
cursor 0 over one adapter; each operation on a concrete one-adapter registry
keeps the cursor in range. -/
theorem claim_C9_witness :
    (StockProviderFactory.initializeProviders
        (StockProviderFactoryConfig.mk
          (some (ProviderConfigEntry.mk "key" none none none)) none) =
      .ok (StockProviderFactory.mk
        [BuiltProvider.fmp (StockProviderConfig.mk "key"
          "https://financialmodelingprep.com/api/v3" 250 10000)] 0)) ∧
    ((StockProviderFactory.mk
        [BuiltProvider.fmp (StockProviderConfig.mk "key"
          "https://financialmodelingprep.com/api/v3" 250 10000)] 0).currentProviderIndex <
      (StockProviderFactory.mk
        [BuiltProvider.fmp (StockProviderConfig.mk "key"
          "https://financialmodelingprep.com/api/v3" 250 10000)] 0).providers.length) ∧
    ((StockProviderFactory.getCurrentProvider (fun b : Bool => b)
        (StockProviderFactory.mk [true] 0)).2.currentProviderIndex <
      (StockProviderFactory.getCurrentProvider (fun b : Bool => b)
        (StockProviderFactory.mk [true] 0)).2.providers.length) ∧
    ((StockProviderFactory.switchToNextProvider
        (StockProviderFactory.mk [true] 0)).currentProviderIndex <
      (StockProviderFactory.switchToNextProvider
        (StockProviderFactory.mk [true] 0)).providers.length) := by
  have h := claim_C9_cursor_in_range
    (StockProviderFactoryConfig.mk
      (some (ProviderConfigEntry.mk "key" none none none)) none)
    (StockProviderFactory.mk
      [BuiltProvider.fmp (StockProviderConfig.mk "key"
        "https://financialmodelingprep.com/api/v3" 250 10000)] 0)
    (fun b : Bool => b) (fun _ => "FMP") (StockProviderFactory.mk [true] 0)
    (by decide)
  exact ⟨rfl, h.1 rfl, h.2.1, h.2.2.2.1⟩
